import Mathlib

/-
  Verification of the SSIP client library (ssip-client-async).

  Shallow embedding of the protocol engine:
  * src/protocol.rs   — frame parser (receive_answer, parse_status_line,
      parse_single_value, parse_event_id, parse_single_integer, parse_typed_lines)
  * src/client.rs     — request encoder (Client::send) and response decoder
      (Client::receive, receive_message_id, receive_i8, receive_event, ...)
  * src/types.rs and ssip/src/lib.rs — domain types and their Display
      conversions to wire tokens
  * ssip-client-async/src/poll.rs — QueuedClient::send_next

  Conventions: lines read from the server are modelled as the successive
  results of BufRead::read_line, i.e. a list of strings each still carrying
  its terminator.  Rust code that can panic is modelled with the `Outcome`
  type so that a reachable panic is visible in the result.  Machine integers
  are Nat/Int; u8/u16/u32 parsing carries the explicit bound.
-/

namespace SSIPClient

/-- Kinds of std::io::Error relevant to the client (io::ErrorKind values
used by protocol.rs and client.rs). -/
inductive IoKind where
  | invalidInput
  | invalidData
  | unexpectedEof
  | other
  deriving DecidableEq, Repr

/-- Command status line (types.rs StatusLine): a 3-digit code and a message. -/
structure StatusLine where
  code : Nat
  message : String
  deriving DecidableEq, Repr

/-- ClientError (ssip/src/lib.rs): I/O error, would-block, SSIP error status,
payload size mismatch, or unexpected success code. `ioErr` models
ClientError::Io (the kind and message of the wrapped io::Error). -/
inductive ClientError where
  | ioErr : IoKind → String → ClientError
  | notReady
  | ssip : StatusLine → ClientError
  | tooFewLines
  | tooManyLines
  | unexpectedStatus : Nat → ClientError
  deriving DecidableEq, Repr

instance {ε α : Type} [DecidableEq ε] [DecidableEq α] : DecidableEq (Except ε α)
  | .error e, .error f =>
    if h : e = f then .isTrue (by rw [h]) else .isFalse (by simp [h])
  | .error _, .ok _ => .isFalse (by simp)
  | .ok _, .error _ => .isFalse (by simp)
  | .ok a, .ok b =>
    if h : a = b then .isTrue (by rw [h]) else .isFalse (by simp [h])

/-- Outcome of running Rust code that may panic: either a reachable panic
with its message, or a returned value. -/
inductive Outcome (α : Type) where
  | panics : String → Outcome α
  | value : α → Outcome α
  deriving DecidableEq, Repr

/-- Rust char::is_whitespace restricted to the ASCII whitespace that can
occur at the end of an SSIP line (space, tab, CR, LF). -/
def isWs (c : Char) : Bool :=
  c = ' ' || c = '\t' || c = '\n' || c = '\r'

/-- Model of str::trim_end on the characters of a line: drop trailing
whitespace. -/
def trimEnd (xs : List Char) : List Char :=
  (xs.reverse.dropWhile isWs).reverse

/-- Numeric value of an ASCII digit. -/
def digVal (c : Char) : Nat := c.toNat - 48

/-- Value of a big-endian digit string. -/
def digitsVal (ds : List Char) : Nat :=
  ds.foldl (fun a c => 10 * a + digVal c) 0

/-- All characters are ASCII digits. -/
def allDigits (ds : List Char) : Bool := ds.all Char.isDigit

/-- Digit part of Rust unsigned parsing: one or more ASCII digits whose
value fits the type's bound. -/
def rustParseDigits (bound : Nat) (ds : List Char) : Option Nat :=
  if ds ≠ [] ∧ allDigits ds = true ∧ digitsVal ds ≤ bound then
    some (digitsVal ds)
  else
    none

/-- Model of Rust str::parse::<uN> (FromStr for unsigned integers): an
optional leading '+', then one or more ASCII digits whose value fits the
type's bound; anything else is an error. -/
def rustParseUnsigned (bound : Nat) (cs : List Char) : Option Nat :=
  rustParseDigits bound (if cs.headD ' ' = '+' then cs.tail else cs)

/-- Model of protocol.rs strip_prefix: remove pfx when the line starts with
it, otherwise return the line unchanged. -/
def stripLead (pfx line : List Char) : List Char :=
  if line.take pfx.length = pfx then line.drop pfx.length else line

/-- protocol.rs parse_status_line: codes in [300, 700) are SSIP failures
with a leading "ERR " stripped from the message; every other code is a
success with a leading "OK " stripped. -/
def parseStatusLine (code : Nat) (line : List Char) : Except ClientError StatusLine :=
  if 300 ≤ code ∧ code < 700 then
    .error (.ssip ⟨code, ⟨stripLead "ERR ".data line⟩⟩)
  else
    .ok ⟨code, ⟨stripLead "OK ".data line⟩⟩

/-- protocol.rs receive_answer: read lines until a status line is found.
The input list holds the successive results of read_line (each line still
carries its CRLF); an empty list stands for end of input, where read_line
yields an empty line.  The fourth character decides: space means the
terminal status line (first three characters parsed as the u16 code), dash
means a continuation whose payload (trimmed) is pushed onto the caller's
buffer when one was supplied.  On success the accumulated buffer is
returned next to the status. -/
def receiveAnswer : List String → Option (List String) →
    Except ClientError (StatusLine × List String)
  | [], _ => .error (.ioErr .invalidInput "empty line")
  | line :: rest, buf =>
    match line.data.get? 3 with
    | some ' ' =>
      match rustParseUnsigned 65535 (line.data.take 3) with
      | some code =>
        (parseStatusLine code (trimEnd (line.data.drop 4))).map
          (fun st => (st, buf.getD []))
      | none => .error (.ioErr .invalidInput "invalid digit found in string")
    | some '-' =>
      match buf with
      | some acc =>
        receiveAnswer rest (some (acc ++ [⟨trimEnd (line.data.drop 4)⟩]))
      | none => .error (.ioErr .invalidInput ("unexpected line: " ++ line))
    | some _ => .error (.ioErr .invalidInput "expecting space or dash")
    | none =>
      if line.isEmpty then .error (.ioErr .invalidInput "empty line")
      else .error (.ioErr .invalidInput ("line too short: " ++ line))

/-- protocol.rs parse_single_value: the only line of the payload, or a
size error. -/
def parseSingleValue (lines : List String) : Except ClientError String :=
  match lines with
  | [] => .error .tooFewLines
  | [s] => .ok s
  | _ => .error .tooManyLines

/-- Event identifier (types.rs EventId): message id and client id lines. -/
structure EventId where
  message : String
  client : String
  deriving DecidableEq, Repr

/-- protocol.rs parse_event_id: exactly two payload lines make an event id. -/
def parseEventId (lines : List String) : Except ClientError EventId :=
  match lines with
  | [] => .error .tooFewLines
  | [_] => .error .tooFewLines
  | [a, b] => .ok ⟨a, b⟩
  | _ => .error .tooManyLines

/-- protocol.rs parse_single_integer instantiated at the root crate's
MessageId = ClientId = String (types.rs): String::from_str is infallible,
so this is parse_single_value. -/
def parseSingleIntegerStr (lines : List String) : Except ClientError String :=
  parseSingleValue lines

/-- Synthesis voice (types.rs SynthesisVoice). -/
structure SynthesisVoice where
  name : String
  language : Option String
  dialect : Option String
  deriving DecidableEq, Repr

/-- types.rs SynthesisVoice::parse_none: the literal token "none" (or a
missing field) decodes to absent. -/
def parseNone (token : Option String) : Option String :=
  match token with
  | some s => if s = "none" then none else some s
  | none => none

/-- FromStr for SynthesisVoice (types.rs): split the line on tabs; the
first field is the name (split always yields at least one field, so the
source's unwrap cannot fail), the next two go through parse_none. -/
def synthesisVoiceFromStr (s : String) : Except ClientError SynthesisVoice :=
  let parts := s.splitOn "\t"
  .ok ⟨parts.headD "", parseNone (parts.get? 1), parseNone (parts.get? 2)⟩

/-- History client status (ssip/src/lib.rs HistoryClientStatus). -/
structure HistoryClientStatus where
  id : Nat
  name : String
  connected : Bool
  deriving DecidableEq, Repr

/-- Rust str::splitn(3, ' '): at most three pieces, the remainder kept
unsplit in the last piece. -/
def splitn3Space (s : String) : List String :=
  match s.splitOn " " with
  | [] => []
  | [a] => [a]
  | [a, b] => [a, b]
  | a :: b :: rest => [a, b, String.intercalate " " rest]

/-- FromStr for HistoryClientStatus (ssip/src/lib.rs): "<id> <name> <0|1>"
with a u32 id. -/
def historyClientStatusFromStr (s : String) : Except ClientError HistoryClientStatus :=
  match splitn3Space s with
  | [] => .error (.ioErr .unexpectedEof "expecting client id")
  | cid :: rest =>
    if cid = "" then .error (.ioErr .unexpectedEof "expecting client id")
    else
      match rustParseUnsigned 4294967295 cid.data with
      | none => .error (.ioErr .invalidData "invalid client id")
      | some id =>
        match rest with
        | [] => .error (.ioErr .unexpectedEof "expecting client name")
        | name :: rest2 =>
          match rest2 with
          | [] => .error (.ioErr .unexpectedEof "expecting client status")
          | st :: _ =>
            if st = "0" then .ok ⟨id, name, false⟩
            else if st = "1" then .ok ⟨id, name, true⟩
            else .error (.ioErr .invalidData "invalid client status")

/-- protocol.rs parse_typed_lines: parse each payload line, failing on the
first error. -/
def parseTypedLines {α : Type} (fromStr : String → Except ClientError α) :
    List String → Except ClientError (List α)
  | [] => .ok []
  | l :: rest => do
    let a ← fromStr l
    let as ← parseTypedLines fromStr rest
    pure (a :: as)

/-- Response from the SSIP server (client.rs Response). -/
inductive Response where
  | languageSet
  | prioritySet
  | rateSet
  | pitchSet
  | punctuationSet
  | capLetRecognSet
  | spellingSet
  | clientNameSet
  | voiceSet
  | stopped
  | paused
  | resumed
  | canceled
  | tableSet
  | outputModuleSet
  | pauseContextSet
  | volumeSet
  | ssmlModeSet
  | notificationSet
  | pitchRangeSet
  | debugSet
  | historyCurSetFirst
  | historyCurSetLast
  | historyCurSetPos
  | historyCurMoveFor
  | historyCurMoveBack
  | messageQueued
  | soundIconQueued
  | messageCanceled
  | receivingData
  | bye
  | historyClientListSent : List HistoryClientStatus → Response
  | historyMsgsListSent : List String → Response
  | historyLastMsg : String → Response
  | historyCurPosRet : String → Response
  | tableListSent : List String → Response
  | historyClientIdSent : String → Response
  | messageTextSent
  | helpSent : List String → Response
  | voicesListSent : List SynthesisVoice → Response
  | outputModulesListSent : List String → Response
  | get : String → Response
  | insideBlock
  | outsideBlock
  | notImplemented
  | eventIndexMark : EventId → String → Response
  | eventBegin : EventId → Response
  | eventEnd : EventId → Response
  | eventCanceled : EventId → Response
  | eventPaused : EventId → Response
  | eventResumed : EventId → Response

/-- The response-decoder match of Client::receive (client.rs), given the
parsed status line and the collected payload lines.  Code 220 is shared by
NotificationSet and HistoryCurSetFirst and the source disambiguates by
comparing the (already "OK "-stripped) message against the constant
"OK CURSOR SET FIRST".  For code 700 the source demands exactly three
payload lines but then feeds all three to parse_event_id, which only
accepts two.  The wildcard arm of the source is a panic. -/
def decodeResponse (status : StatusLine) (lines : List String) :
    Outcome (Except ClientError Response) :=
  let c := status.code
  if c = 201 then .value (.ok .languageSet)
  else if c = 202 then .value (.ok .prioritySet)
  else if c = 203 then .value (.ok .rateSet)
  else if c = 204 then .value (.ok .pitchSet)
  else if c = 205 then .value (.ok .punctuationSet)
  else if c = 206 then .value (.ok .capLetRecognSet)
  else if c = 207 then .value (.ok .spellingSet)
  else if c = 208 then .value (.ok .clientNameSet)
  else if c = 209 then .value (.ok .voiceSet)
  else if c = 210 then .value (.ok .stopped)
  else if c = 211 then .value (.ok .paused)
  else if c = 212 then .value (.ok .resumed)
  else if c = 213 then .value (.ok .canceled)
  else if c = 215 then .value (.ok .tableSet)
  else if c = 216 then .value (.ok .outputModuleSet)
  else if c = 217 then .value (.ok .pauseContextSet)
  else if c = 218 then .value (.ok .volumeSet)
  else if c = 219 then .value (.ok .ssmlModeSet)
  else if c = 220 then
    .value (.ok (if status.message = "OK CURSOR SET FIRST" then
      Response.historyCurSetFirst else Response.notificationSet))
  else if c = 221 then .value (.ok .historyCurSetLast)
  else if c = 222 then .value (.ok .historyCurSetPos)
  else if c = 263 then .value (.ok .pitchRangeSet)
  else if c = 262 then .value (.ok .debugSet)
  else if c = 223 then .value (.ok .historyCurMoveFor)
  else if c = 224 then .value (.ok .historyCurMoveBack)
  else if c = 225 then .value (.ok .messageQueued)
  else if c = 226 then .value (.ok .soundIconQueued)
  else if c = 227 then .value (.ok .messageCanceled)
  else if c = 230 then .value (.ok .receivingData)
  else if c = 231 then .value (.ok .bye)
  else if c = 240 then
    .value ((parseTypedLines historyClientStatusFromStr lines).map .historyClientListSent)
  else if c = 241 then .value (.ok (.historyMsgsListSent lines))
  else if c = 242 then .value ((parseSingleValue lines).map .historyLastMsg)
  else if c = 243 then .value ((parseSingleValue lines).map .historyCurPosRet)
  else if c = 244 then .value (.ok (.tableListSent lines))
  else if c = 245 then .value ((parseSingleIntegerStr lines).map .historyClientIdSent)
  else if c = 246 then .value (.ok .messageTextSent)
  else if c = 248 then .value (.ok (.helpSent lines))
  else if c = 249 then
    .value ((parseTypedLines synthesisVoiceFromStr lines).map .voicesListSent)
  else if c = 250 then .value (.ok (.outputModulesListSent lines))
  else if c = 251 then .value ((parseSingleValue lines).map .get)
  else if c = 260 then .value (.ok .insideBlock)
  else if c = 261 then .value (.ok .outsideBlock)
  else if c = 299 then .value (.ok .notImplemented)
  else if c = 700 then
    match lines with
    | [] => .value (.error .tooFewLines)
    | [_] => .value (.error .tooFewLines)
    | [_, _] => .value (.error .tooFewLines)
    | [a, b, x] => .value ((parseEventId [a, b, x]).map (fun id => .eventIndexMark id x))
    | _ => .value (.error .tooManyLines)
  else if c = 701 then .value ((parseEventId lines).map .eventBegin)
  else if c = 702 then .value ((parseEventId lines).map .eventEnd)
  else if c = 703 then .value ((parseEventId lines).map .eventCanceled)
  else if c = 704 then .value ((parseEventId lines).map .eventPaused)
  else if c = 705 then .value ((parseEventId lines).map .eventResumed)
  else .panics "error should have been caught earlier"

/-- Client::receive (client.rs): frame one response with receive_answer
(with a fresh line buffer), then decode it. -/
def receiveRun (input : List String) : Outcome (Except ClientError Response) :=
  match receiveAnswer input (some []) with
  | .error e => .value (.error e)
  | .ok (status, lines) => decodeResponse status lines

/-- Client::receive_lines (client.rs): frame one response; its lines are
returned when the status code is the expected one, otherwise
UnexpectedStatus. -/
def receiveLines (input : List String) (expected : Nat) :
    Except ClientError (List String) :=
  (receiveAnswer input (some [])).bind (fun r =>
    if r.1.code = expected then .ok r.2
    else .error (.unexpectedStatus r.1.code))

/-- Client::receive_string (client.rs): receive_lines then
parse_single_value. -/
def receiveString (input : List String) (expected : Nat) :
    Except ClientError String :=
  (receiveLines input expected).bind parseSingleValue

/-- Client::receive_i8 (client.rs): despite its name it is declared as
returning u8 and parses the single line of a code-251 (OK_GET) response
with str::parse::<u8>. -/
def receiveI8 (input : List String) : Except ClientError Nat :=
  (receiveString input 251).bind (fun s =>
    match rustParseUnsigned 255 s.data with
    | some n => .ok n
    | none => .error (.ioErr .invalidData "invalid signed integer"))

/-- Client::receive_message_id (client.rs): accept OK_MESSAGE_QUEUED (225)
or OK_LAST_MSG (242) and run parse_single_integer at MessageId = String;
any other successfully classified code is InvalidData. -/
def receiveMessageId (input : List String) : Except ClientError String :=
  (receiveAnswer input (some [])).bind (fun r =>
    if r.1.code = 225 ∨ r.1.code = 242 then
      parseSingleIntegerStr r.2
    else .error (.ioErr .invalidData "not a message id"))

/-- Notification event type (types.rs EventType). -/
inductive EventType where
  | Begin
  | End
  | Cancel
  | Pause
  | Resume
  | IndexMark : String → EventType
  deriving DecidableEq, Repr

/-- Notification event (types.rs Event). -/
structure Event where
  ntype : EventType
  message : String
  client : String
  deriving DecidableEq, Repr

/-- types.rs Event::begin. -/
def Event.begin (message client : String) : Event := ⟨.Begin, message, client⟩

/-- types.rs Event::end. -/
def Event.endEv (message client : String) : Event := ⟨.End, message, client⟩

/-- types.rs Event::cancel. -/
def Event.cancel (message client : String) : Event := ⟨.Cancel, message, client⟩

/-- types.rs Event::pause. -/
def Event.pauseEv (message client : String) : Event := ⟨.Pause, message, client⟩

/-- types.rs Event::resume. -/
def Event.resume (message client : String) : Event := ⟨.Resume, message, client⟩

/-- types.rs Event::index_mark. -/
def Event.index_mark (mark message client : String) : Event :=
  ⟨.IndexMark mark, message, client⟩

/-- Client::receive_event (client.rs, identical in tokio.rs): frame one
response; fewer than two payload lines is a truncated event; code 700
demands exactly three lines and then reads lines[3], an out-of-bounds
index on a vector of length three, which in Rust panics; codes 701-705
build their events from lines[0] and lines[1]; other codes are
InvalidData. -/
def receiveEvent (input : List String) : Outcome (Except ClientError Event) :=
  match receiveAnswer input (some []) with
  | .error e => .value (.error e)
  | .ok (status, lines) =>
    if lines.length < 2 then
      .value (.error (.ioErr .unexpectedEof "event truncated"))
    else
      let message := lines.getD 0 ""
      let client := lines.getD 1 ""
      if status.code = 700 then
        if lines.length ≠ 3 then
          .value (.error (.ioErr .unexpectedEof "index markevent truncated"))
        else
          match lines.get? 3 with
          | none => .panics "index out of bounds: the len is 3 but the index is 3"
          | some mark => .value (.ok (Event.index_mark mark message client))
      else if status.code = 701 then .value (.ok (Event.begin message client))
      else if status.code = 702 then .value (.ok (Event.endEv message client))
      else if status.code = 703 then .value (.ok (Event.cancel message client))
      else if status.code = 704 then .value (.ok (Event.pauseEv message client))
      else if status.code = 705 then .value (.ok (Event.resume message client))
      else .value (.error (.ioErr .invalidData "wrong status code for event"))

/-- Priority (types.rs and ssip/src/lib.rs). -/
inductive Priority where
  | Progress
  | Notification
  | Message
  | Text
  | Important
  deriving DecidableEq, Repr

/-- Wire token of Priority in the root crate: the Display derived through
the strum serialize attributes on types.rs Priority. -/
def Priority.token : Priority → String
  | .Progress => "progress"
  | .Notification => "notification"
  | .Message => "message"
  | .Text => "text"
  | .Important => "important"

/-- The manual fmt::Display impl for Priority in ssip/src/lib.rs (the
types crate re-exported by ssip-client-async), transcribed arm by arm. -/
def Priority.display_ssip : Priority → String
  | .Progress => "important"
  | .Notification => "notification"
  | .Message => "message"
  | .Text => "text"
  | .Important => "message"

/-- Punctuation mode (types.rs). -/
inductive PunctuationMode where
  | None
  | Some
  | Most
  | All
  deriving DecidableEq, Repr

/-- Wire token of PunctuationMode (strum serialize / ssip Display). -/
def PunctuationMode.display : PunctuationMode → String
  | .None => "none"
  | .Some => "some"
  | .Most => "most"
  | .All => "all"

/-- Capital letters recognition mode (types.rs). -/
inductive CapitalLettersRecognitionMode where
  | None
  | Spell
  | Icon
  deriving DecidableEq, Repr

/-- Wire token of CapitalLettersRecognitionMode. -/
def CapitalLettersRecognitionMode.display : CapitalLettersRecognitionMode → String
  | .None => "none"
  | .Spell => "spell"
  | .Icon => "icon"

/-- Symbolic key names (types.rs KeyName). -/
inductive KeyName where
  | Space
  | Underscore
  | DoubleQuote
  | Alt
  | Control
  | Hyper
  | Meta
  | Shift
  | Super
  | Backspace
  | Break
  | Delete
  | Down
  | End
  | Enter
  | Escape
  | F1 | F2 | F3 | F4 | F5 | F6 | F7 | F8 | F9 | F10 | F11 | F12
  | F13 | F14 | F15 | F16 | F17 | F18 | F19 | F20 | F21 | F22 | F23 | F24
  | Home
  | Insert
  | KpMultiply
  | KpPlus
  | KpMinus
  | KpDot
  | KpDivide
  | Kp0 | Kp1 | Kp2 | Kp3 | Kp4 | Kp5 | Kp6 | Kp7 | Kp8 | Kp9
  | KpEnter
  | Left
  | Menu
  | Next
  | NumLock
  | Pause
  | Print
  | Prior
  | Return
  | Right
  | ScrollLock
  | Tab
  | Up
  | Window

/-- Wire token of KeyName (strum serialize attributes in types.rs). -/
def KeyName.token : KeyName → String
  | .Space => "space"
  | .Underscore => "underscore"
  | .DoubleQuote => "double-quote"
  | .Alt => "alt"
  | .Control => "control"
  | .Hyper => "hyper"
  | .Meta => "meta"
  | .Shift => "shift"
  | .Super => "super"
  | .Backspace => "backspace"
  | .Break => "break"
  | .Delete => "delete"
  | .Down => "down"
  | .End => "end"
  | .Enter => "enter"
  | .Escape => "escape"
  | .F1 => "f1"
  | .F2 => "f2"
  | .F3 => "f3"
  | .F4 => "f4"
  | .F5 => "f5"
  | .F6 => "f6"
  | .F7 => "f7"
  | .F8 => "f8"
  | .F9 => "f9"
  | .F10 => "f10"
  | .F11 => "f11"
  | .F12 => "f12"
  | .F13 => "f13"
  | .F14 => "f14"
  | .F15 => "f15"
  | .F16 => "f16"
  | .F17 => "f17"
  | .F18 => "f18"
  | .F19 => "f19"
  | .F20 => "f20"
  | .F21 => "f21"
  | .F22 => "f22"
  | .F23 => "f23"
  | .F24 => "f24"
  | .Home => "home"
  | .Insert => "insert"
  | .KpMultiply => "kp-*"
  | .KpPlus => "kp-+"
  | .KpMinus => "kp--"
  | .KpDot => "kp-."
  | .KpDivide => "kp-/"
  | .Kp0 => "kp-0"
  | .Kp1 => "kp-1"
  | .Kp2 => "kp-2"
  | .Kp3 => "kp-3"
  | .Kp4 => "kp-4"
  | .Kp5 => "kp-5"
  | .Kp6 => "kp-6"
  | .Kp7 => "kp-7"
  | .Kp8 => "kp-8"
  | .Kp9 => "kp-9"
  | .KpEnter => "kp-enter"
  | .Left => "left"
  | .Menu => "menu"
  | .Next => "next"
  | .NumLock => "num-lock"
  | .Pause => "pause"
  | .Print => "print"
  | .Prior => "prior"
  | .Return => "return"
  | .Right => "right"
  | .ScrollLock => "scroll-lock"
  | .Tab => "tab"
  | .Up => "up"
  | .Window => "window"

/-- Notification type (types.rs NotificationType). -/
inductive NotificationType where
  | Begin
  | End
  | Cancel
  | Pause
  | Resume
  | IndexMark
  | All
  deriving DecidableEq, Repr

/-- Wire token of NotificationType. -/
def NotificationType.display : NotificationType → String
  | .Begin => "begin"
  | .End => "end"
  | .Cancel => "cancel"
  | .Pause => "pause"
  | .Resume => "resume"
  | .IndexMark => "index_mark"
  | .All => "all"

/-- Message scope (types.rs MessageScope); ids are MessageId = String. -/
inductive MessageScope where
  | Last
  | All
  | Message : String → MessageScope
  deriving DecidableEq, Repr

/-- Display of MessageScope (ssip/src/lib.rs): self, all, or the id. -/
def MessageScope.display : MessageScope → String
  | .Last => "self"
  | .All => "all"
  | .Message id => id

/-- Client scope (types.rs ClientScope); ids are ClientId = String. -/
inductive ClientScope where
  | Current
  | All
  | Client : String → ClientScope
  deriving DecidableEq, Repr

/-- Display of ClientScope (ssip/src/lib.rs): self, all, or the id. -/
def ClientScope.display : ClientScope → String
  | .Current => "self"
  | .All => "all"
  | .Client id => id

/-- Cursor motion in history (ssip/src/lib.rs CursorDirection). -/
inductive CursorDirection where
  | Backward
  | Forward
  deriving DecidableEq, Repr

/-- Display of CursorDirection. -/
def CursorDirection.display : CursorDirection → String
  | .Backward => "backward"
  | .Forward => "forward"

/-- Sort direction in history (ssip/src/lib.rs SortDirection). -/
inductive SortDirection where
  | Ascending
  | Descending
  deriving DecidableEq, Repr

/-- Display of SortDirection. -/
def SortDirection.display : SortDirection → String
  | .Ascending => "asc"
  | .Descending => "desc"

/-- Sort key in history (ssip/src/lib.rs SortKey). -/
inductive SortKey where
  | ClientName
  | Priority
  | MessageType
  | Time
  | User
  deriving DecidableEq, Repr

/-- Display of SortKey. -/
def SortKey.display : SortKey → String
  | .ClientName => "client_name"
  | .Priority => "priority"
  | .MessageType => "message_type"
  | .Time => "time"
  | .User => "user"

/-- Message type ordering (ssip/src/lib.rs Ordering). -/
inductive Ordering where
  | Text
  | SoundIcon
  | Char
  | Key
  deriving DecidableEq, Repr

/-- Display of Ordering. -/
def Ordering.display : Ordering → String
  | .Text => "text"
  | .SoundIcon => "sound_icon"
  | .Char => "char"
  | .Key => "key"

/-- Position in history (ssip/src/lib.rs HistoryPosition). -/
inductive HistoryPosition where
  | First
  | Last
  | Pos : Nat → HistoryPosition
  deriving DecidableEq, Repr

/-- Display of HistoryPosition: first, last, or pos N. -/
def HistoryPosition.display : HistoryPosition → String
  | .First => "first"
  | .Last => "last"
  | .Pos n => "pos " ++ toString n

/-- Client name (ssip/src/lib.rs ClientName). -/
structure ClientName where
  user : String
  application : String
  component : String
  deriving DecidableEq, Repr

/-- client.rs on_off: booleans map to lowercase on/off. -/
def on_off (value : Bool) : String := if value then "on" else "off"

/-- Request for the SSIP server (client.rs Request).  Range parameters of
SetRate, SetPitch and SetVolume are i8, modelled as Int (theorems carry
the [-128, 127] bound).  SetPauseContext and history counters are u32,
modelled as Nat. -/
inductive Request where
  | SetName : ClientName → Request
  | Speak
  | SendLine : String → Request
  | SendLines : List String → Request
  | SpeakChar : Char → Request
  | SpeakKey : KeyName → Request
  | Stop : MessageScope → Request
  | Cancel : MessageScope → Request
  | Pause : MessageScope → Request
  | Resume : MessageScope → Request
  | SetPriority : Priority → Request
  | SetDebug : Bool → Request
  | SetOutputModule : ClientScope → String → Request
  | GetOutputModule
  | ListOutputModules
  | SetLanguage : ClientScope → String → Request
  | GetLanguage
  | SetSsmlMode : Bool → Request
  | SetPunctuationMode : ClientScope → PunctuationMode → Request
  | SetSpelling : ClientScope → Bool → Request
  | SetCapitalLettersRecognitionMode : ClientScope → CapitalLettersRecognitionMode → Request
  | SetVoiceType : ClientScope → String → Request
  | GetVoiceType
  | ListVoiceTypes
  | SetSynthesisVoice : ClientScope → String → Request
  | ListSynthesisVoices
  | SetRate : ClientScope → Int → Request
  | GetRate
  | SetPitch : ClientScope → Int → Request
  | GetPitch
  | SetVolume : ClientScope → Int → Request
  | GetVolume
  | SetPauseContext : ClientScope → Nat → Request
  | SetNotification : NotificationType → Bool → Request
  | Begin
  | End
  | SetHistory : ClientScope → Bool → Request
  | HistoryGetClients
  | HistoryGetClientId
  | HistoryGetClientMsgs : ClientScope → Nat → Nat → Request
  | HistoryGetLastMsgId
  | HistoryGetMsg : String → Request
  | HistoryCursorGet
  | HistoryCursorSet : ClientScope → HistoryPosition → Request
  | HistoryCursorMove : CursorDirection → Request
  | HistorySpeak : String → Request
  | HistorySort : SortDirection → SortKey → Request
  | HistorySetShortMsgLength : Nat → Request
  | HistorySetMsgTypeOrdering : List Ordering → Request
  | HistorySearch : ClientScope → String → Request
  | Quit

/-- The wire lines flushed by Client::send (client.rs) for one request.
Each element is one line; send_one_line flushes a single formatted line,
SendLine and SendLines append the single-dot terminator.  The range
setters clamp with std::cmp::max(-100, std::cmp::min(100, value)). -/
def encodeRequest : Request → List String
  | .SetName cn =>
    ["SET self CLIENT_NAME " ++ cn.user ++ ":" ++ cn.application ++ ":" ++ cn.component]
  | .Speak => ["SPEAK"]
  | .SendLine line => [line, "."]
  | .SendLines lines => lines ++ ["."]
  | .SpeakChar ch => ["CHAR " ++ ⟨[ch]⟩]
  | .SpeakKey key => ["KEY " ++ key.token]
  | .Stop scope => ["STOP " ++ scope.display]
  | .Cancel scope => ["CANCEL " ++ scope.display]
  | .Pause scope => ["PAUSE " ++ scope.display]
  | .Resume scope => ["RESUME " ++ scope.display]
  | .SetPriority prio => ["SET self PRIORITY " ++ prio.token]
  | .SetDebug value => ["SET all DEBUG " ++ on_off value]
  | .SetOutputModule scope value => ["SET " ++ scope.display ++ " OUTPUT_MODULE " ++ value]
  | .GetOutputModule => ["GET OUTPUT_MODULE"]
  | .ListOutputModules => ["LIST OUTPUT_MODULES"]
  | .SetLanguage scope lang => ["SET " ++ scope.display ++ " LANGUAGE " ++ lang]
  | .GetLanguage => ["GET LANGUAGE"]
  | .SetSsmlMode value => ["SET self SSML_MODE " ++ on_off value]
  | .SetPunctuationMode scope mode => ["SET " ++ scope.display ++ " PUNCTUATION " ++ mode.display]
  | .SetSpelling scope value => ["SET " ++ scope.display ++ " SPELLING " ++ on_off value]
  | .SetCapitalLettersRecognitionMode scope mode =>
    ["SET " ++ scope.display ++ " CAP_LET_RECOGN " ++ mode.display]
  | .SetVoiceType scope value => ["SET " ++ scope.display ++ " VOICE_TYPE " ++ value]
  | .GetVoiceType => ["GET VOICE_TYPE"]
  | .ListVoiceTypes => ["LIST VOICES"]
  | .SetSynthesisVoice scope value => ["SET " ++ scope.display ++ " SYNTHESIS_VOICE " ++ value]
  | .ListSynthesisVoices => ["LIST SYNTHESIS_VOICES"]
  | .SetRate scope value =>
    ["SET " ++ scope.display ++ " RATE " ++ toString (max (-100) (min 100 value))]
  | .GetRate => ["GET RATE"]
  | .SetPitch scope value =>
    ["SET " ++ scope.display ++ " PITCH " ++ toString (max (-100) (min 100 value))]
  | .GetPitch => ["GET PITCH"]
  | .SetVolume scope value =>
    ["SET " ++ scope.display ++ " VOLUME " ++ toString (max (-100) (min 100 value))]
  | .GetVolume => ["GET VOLUME"]
  | .SetPauseContext scope value =>
    ["SET " ++ scope.display ++ " PAUSE_CONTEXT " ++ toString value]
  | .SetNotification ntype value =>
    ["SET self NOTIFICATION " ++ ntype.display ++ " " ++ on_off value]
  | .Begin => ["BLOCK BEGIN"]
  | .End => ["BLOCK END"]
  | .SetHistory scope value => ["SET " ++ scope.display ++ " HISTORY " ++ on_off value]
  | .HistoryGetClients => ["HISTORY GET CLIENT_LIST"]
  | .HistoryGetClientId => ["HISTORY GET CLIENT_ID"]
  | .HistoryGetClientMsgs scope start number =>
    ["HISTORY GET CLIENT_MESSAGES " ++ scope.display ++ " " ++ toString start ++ "_" ++ toString number]
  | .HistoryGetLastMsgId => ["HISTORY GET LAST"]
  | .HistoryGetMsg id => ["HISTORY GET MESSAGE " ++ id]
  | .HistoryCursorGet => ["HISTORY CURSOR GET"]
  | .HistoryCursorSet scope pos => ["HISTORY CURSOR SET " ++ scope.display ++ " " ++ pos.display]
  | .HistoryCursorMove direction => ["HISTORY CURSOR " ++ direction.display]
  | .HistorySpeak id => ["HISTORY SAY " ++ id]
  | .HistorySort direction key => ["HISTORY SORT " ++ direction.display ++ " " ++ key.display]
  | .HistorySetShortMsgLength length => ["HISTORY SET SHORT_MESSAGE_LENGTH " ++ toString length]
  | .HistorySetMsgTypeOrdering ordering =>
    ["HISTORY SET MESSAGE_TYPE_ORDERING \"" ++ String.intercalate " " (ordering.map Ordering.display) ++ "\""]
  | .HistorySearch scope condition =>
    ["HISTORY SEARCH " ++ scope.display ++ " \"" ++ condition ++ "\""]
  | .Quit => ["QUIT"]

/-- QueuedClient::send_next (ssip-client-async/src/poll.rs): pop_front the
head request, then try to send it; the ? operator propagates a send error
after the pop, so the head is gone from the queue in the error case too.
The send itself is I/O-dependent and passed in as a function; the result
pairs the returned value with the queue left behind. -/
def sendNext (sendFn : Request → Except ClientError Unit)
    (requests : List Request) : Except ClientError Bool × List Request :=
  match requests with
  | [] => (.ok false, [])
  | r :: rest =>
    match sendFn r with
    | .ok _ => (.ok true, rest)
    | .error e => (.error e, rest)

/-- QueuedClient::push (poll.rs): enqueue at the tail. -/
def pushRequest (requests : List Request) (request : Request) : List Request :=
  requests ++ [request]

/-- A continuation line NNN-<payload>CRLF built from the three code
digits, as it comes back from read_line. -/
def mkContinuation (d1 d2 d3 : Char) (p : String) : String :=
  ⟨d1 :: d2 :: d3 :: '-' :: (p.data ++ ['\r', '\n'])⟩

/-- A terminal status line NNN <rest>CRLF built from the three code
digits, as it comes back from read_line. -/
def mkTerminal (d1 d2 d3 : Char) (rest : String) : String :=
  ⟨d1 :: d2 :: d3 :: ' ' :: (rest.data ++ ['\r', '\n'])⟩

/-- A whole response frame: zero or more continuation lines followed by
the terminal status line, all with the same three code digits. -/
def mkFrame (d1 d2 d3 : Char) (ps : List String) (rest : String) : List String :=
  ps.map (mkContinuation d1 d2 d3) ++ [mkTerminal d1 d2 d3 rest]

/-- Numeric value of the three code digits. -/
def codeVal (d1 d2 d3 : Char) : Nat := digitsVal [d1, d2, d3]

/-- A payload or status text as it can occur on one read line: no
embedded line feed (read_line would have split there) and no trailing
whitespace (trim_end leaves it unchanged). -/
def cleanLine (s : String) : Prop :=
  ('\n' ∉ s.data) ∧ trimEnd s.data = s.data

instance (s : String) : Decidable (cleanLine s) :=
  inferInstanceAs (Decidable (('\n' ∉ s.data) ∧ trimEnd s.data = s.data))

/-- The status codes with an arm in the response-decoder match of
Client::receive (client.rs), in source order; every other code falls into
the wildcard arm. -/
def handledCodes : List Nat :=
  [201, 202, 203, 204, 205, 206, 207, 208, 209, 210, 211, 212, 213, 215,
   216, 217, 218, 219, 220, 221, 222, 263, 262, 223, 224, 225, 226, 227,
   230, 231, 240, 241, 242, 243, 244, 245, 246, 248, 249, 250, 251, 260,
   261, 299, 700, 701, 702, 703, 704, 705]

/- ===================== Theorems ===================== -/

theorem data_mk (l : List Char) : (⟨l⟩ : String).data = l := rfl

theorem dropWhile_cons_true {p : Char → Bool} {a : Char} (l : List Char)
    (h : p a = true) : List.dropWhile p (a :: l) = List.dropWhile p l := by
  simp [List.dropWhile, h]

theorem dropWhile_all_false {p : Char → Bool} :
    ∀ xs : List Char, (∀ c ∈ xs, p c = false) → xs.dropWhile p = xs
  | [], _ => rfl
  | c :: cs, h => by
    have hc := h c (List.mem_cons_self c cs)
    simp [List.dropWhile, hc]

theorem trimEnd_eq_self {xs : List Char} (h : ∀ c ∈ xs, isWs c = false) :
    trimEnd xs = xs := by
  unfold trimEnd
  rw [dropWhile_all_false xs.reverse (fun c hc => h c (List.mem_reverse.mp hc)),
    List.reverse_reverse]

theorem trimEnd_append_crlf (xs : List Char) :
    trimEnd (xs ++ ['\r', '\n']) = trimEnd xs := by
  unfold trimEnd
  rw [List.reverse_append]
  show (List.dropWhile isWs ('\n' :: '\r' :: xs.reverse)).reverse = _
  rw [dropWhile_cons_true _ (by decide), dropWhile_cons_true _ (by decide)]

theorem char_bounds_of_isDigit {c : Char} (h : c.isDigit = true) :
    48 ≤ c.toNat ∧ c.toNat ≤ 57 := by
  simp [Char.isDigit] at h
  obtain ⟨h1, h2⟩ := h
  unfold Char.toNat
  exact ⟨UInt32.le_def.mp h1, UInt32.le_def.mp h2⟩

theorem digVal_le_9 {c : Char} (h : c.isDigit = true) : digVal c ≤ 9 := by
  have := char_bounds_of_isDigit h
  unfold digVal
  omega

theorem isWs_false_of_isDigit {c : Char} (h : c.isDigit = true) :
    isWs c = false := by
  have hb := char_bounds_of_isDigit h
  have e1 : c ≠ ' ' := by rintro rfl; exact absurd hb (by decide)
  have e2 : c ≠ '\t' := by rintro rfl; exact absurd hb (by decide)
  have e3 : c ≠ '\n' := by rintro rfl; exact absurd hb (by decide)
  have e4 : c ≠ '\r' := by rintro rfl; exact absurd hb (by decide)
  simp [isWs, e1, e2, e3, e4]

theorem ne_plus_of_isDigit {c : Char} (h : c.isDigit = true) : c ≠ '+' := by
  rintro rfl
  exact absurd h (by decide)

theorem rustParseUnsigned_digits {bound : Nat} {ds : List Char} (hne : ds ≠ [])
    (hd : allDigits ds = true) (hb : digitsVal ds ≤ bound) :
    rustParseUnsigned bound ds = some (digitsVal ds) := by
  have hhead : ds.headD ' ' ≠ '+' := by
    cases ds with
    | nil => exact absurd rfl hne
    | cons c cs =>
      have : c.isDigit = true := by
        simp [allDigits] at hd
        exact hd.1
      simpa [List.headD] using ne_plus_of_isDigit this
  unfold rustParseUnsigned
  rw [if_neg hhead]
  unfold rustParseDigits
  rw [if_pos ⟨hne, hd, hb⟩]

theorem rustParseUnsigned_le {bound : Nat} {cs : List Char} {n : Nat}
    (h : rustParseUnsigned bound cs = some n) : n ≤ bound := by
  unfold rustParseUnsigned rustParseDigits at h
  split at h <;> split at h <;> simp_all

theorem codeVal_le_999 (d1 d2 d3 : Char) (h1 : d1.isDigit = true)
    (h2 : d2.isDigit = true) (h3 : d3.isDigit = true) :
    codeVal d1 d2 d3 ≤ 999 := by
  have e1 := digVal_le_9 h1
  have e2 := digVal_le_9 h2
  have e3 := digVal_le_9 h3
  unfold codeVal digitsVal
  simp [List.foldl]
  omega

theorem parseCode_eq (d1 d2 d3 : Char) (h1 : d1.isDigit = true)
    (h2 : d2.isDigit = true) (h3 : d3.isDigit = true) :
    rustParseUnsigned 65535 [d1, d2, d3] = some (codeVal d1 d2 d3) := by
  have hall : allDigits [d1, d2, d3] = true := by
    simp [allDigits, h1, h2, h3]
  have hle : digitsVal [d1, d2, d3] ≤ 65535 := by
    have := codeVal_le_999 d1 d2 d3 h1 h2 h3
    unfold codeVal at this
    omega
  exact rustParseUnsigned_digits (by simp) hall hle

theorem receiveAnswer_terminal (d1 d2 d3 : Char) (h1 : d1.isDigit = true)
    (h2 : d2.isDigit = true) (h3 : d3.isDigit = true)
    (rest : String) (htr : trimEnd rest.data = rest.data)
    (more : List String) (buf : Option (List String)) :
    receiveAnswer (mkTerminal d1 d2 d3 rest :: more) buf =
      (parseStatusLine (codeVal d1 d2 d3) rest.data).map
        (fun st => (st, buf.getD [])) :=
  calc receiveAnswer (mkTerminal d1 d2 d3 rest :: more) buf
      = (match rustParseUnsigned 65535 [d1, d2, d3] with
         | some code =>
           (parseStatusLine code (trimEnd (rest.data ++ ['\r', '\n']))).map
             (fun st => (st, buf.getD []))
         | none => .error (.ioErr .invalidInput "invalid digit found in string")) := rfl
    _ = (parseStatusLine (codeVal d1 d2 d3) (trimEnd (rest.data ++ ['\r', '\n']))).map
          (fun st => (st, buf.getD [])) := by
        rw [parseCode_eq d1 d2 d3 h1 h2 h3]
    _ = (parseStatusLine (codeVal d1 d2 d3) rest.data).map
          (fun st => (st, buf.getD [])) := by
        rw [trimEnd_append_crlf, htr]

theorem receiveAnswer_continuation (d1 d2 d3 : Char) (p : String)
    (htr : trimEnd p.data = p.data) (more : List String) (acc : List String) :
    receiveAnswer (mkContinuation d1 d2 d3 p :: more) (some acc) =
      receiveAnswer more (some (acc ++ [p])) := by
  have e : receiveAnswer (mkContinuation d1 d2 d3 p :: more) (some acc) =
      receiveAnswer more (some (acc ++ [String.mk (trimEnd (p.data ++ ['\r', '\n']))])) := rfl
  rw [e, trimEnd_append_crlf, htr]

theorem receiveAnswer_mkFrame (d1 d2 d3 : Char) (h1 : d1.isDigit = true)
    (h2 : d2.isDigit = true) (h3 : d3.isDigit = true)
    (rest : String) (hr : trimEnd rest.data = rest.data)
    (ps : List String) (hp : ∀ p ∈ ps, trimEnd p.data = p.data) :
    ∀ acc : List String,
      receiveAnswer (mkFrame d1 d2 d3 ps rest) (some acc) =
        (parseStatusLine (codeVal d1 d2 d3) rest.data).map
          (fun st => (st, acc ++ ps)) := by
  induction ps with
  | nil =>
    intro acc
    simpa using receiveAnswer_terminal d1 d2 d3 h1 h2 h3 rest hr [] (some acc)
  | cons p ps ih =>
    intro acc
    calc receiveAnswer (mkFrame d1 d2 d3 (p :: ps) rest) (some acc)
        = receiveAnswer (mkContinuation d1 d2 d3 p :: mkFrame d1 d2 d3 ps rest)
            (some acc) := rfl
      _ = receiveAnswer (mkFrame d1 d2 d3 ps rest) (some (acc ++ [p])) :=
          receiveAnswer_continuation d1 d2 d3 p (hp p (by simp))
            (mkFrame d1 d2 d3 ps rest) acc
      _ = (parseStatusLine (codeVal d1 d2 d3) rest.data).map
            (fun st => (st, (acc ++ [p]) ++ ps)) :=
          ih (fun q hq => hp q (by simp [hq])) (acc ++ [p])
      _ = (parseStatusLine (codeVal d1 d2 d3) rest.data).map
            (fun st => (st, acc ++ p :: ps)) := by
          rw [show (acc ++ [p]) ++ ps = acc ++ p :: ps by simp]

/-- C1: code 220 disambiguation in Client::receive.  The claim says the
wire status line `220 OK CURSOR SET FIRST` decodes to HistoryCurSetFirst
and any other 220 message to NotificationSet.  In the source,
receive_answer already strips the leading "OK " before receive compares
the message against the constant "OK CURSOR SET FIRST", so that very wire
line decodes to NotificationSet; HistoryCurSetFirst is reachable only
from the doubled wire line `220 OK OK CURSOR SET FIRST`. -/
theorem C1_code220_disambiguation :
    receiveRun ["220 OK CURSOR SET FIRST\r\n"] = .value (.ok .notificationSet)
    ∧ receiveRun ["220 OK OK CURSOR SET FIRST\r\n"] = .value (.ok .historyCurSetFirst)
    ∧ receiveRun ["220 OK NOTIFICATION SET\r\n"] = .value (.ok .notificationSet)
    ∧ (∀ (m : String) (lines : List String), decodeResponse ⟨220, m⟩ lines =
        .value (.ok (if m = "OK CURSOR SET FIRST" then Response.historyCurSetFirst
          else Response.notificationSet))) := by
  refine ⟨rfl, rfl, rfl, fun m lines => ?_⟩
  simp [decodeResponse]

/-- C3: wire tokens of the Priority variants.  The claim's table
(Progress to "progress", ..., Important to "important") matches the strum
tokens of types.rs, but the manual Display impl in ssip/src/lib.rs (lines
85-95, the conversion used when the ssip crate's Priority is formatted
into `SET self PRIORITY {token}`) sends "important" for Progress and
"message" for Important. -/
theorem C3_priority_wire_tokens :
    Priority.display_ssip .Progress = "important"
    ∧ Priority.display_ssip .Important = "message"
    ∧ Priority.display_ssip .Notification = "notification"
    ∧ Priority.display_ssip .Message = "message"
    ∧ Priority.display_ssip .Text = "text"
    ∧ Priority.display_ssip .Progress ≠ "progress"
    ∧ Priority.display_ssip .Important ≠ "important"
    ∧ (∀ p : Priority, encodeRequest (.SetPriority p)
        = ["SET self PRIORITY " ++ Priority.token p])
    ∧ Priority.token .Progress = "progress"
    ∧ Priority.token .Notification = "notification"
    ∧ Priority.token .Message = "message"
    ∧ Priority.token .Text = "text"
    ∧ Priority.token .Important = "important" :=
  ⟨rfl, rfl, rfl, rfl, rfl, by decide, by decide,
    fun p => by cases p <;> rfl, rfl, rfl, rfl, rfl, rfl⟩

/-- C4: Client::receive_event on event frames.  A well-formed three-line
code-700 frame makes the source read lines[3] out of a vector of length
three, which panics, contrary to the claim that it yields an index-mark
event and never panics; two-line 701-705 frames decode to their events
and any other code is InvalidData. -/
theorem C4_receive_event_panics_on_index_mark :
    receiveEvent ["700-21\r\n", "700-test\r\n", "700-mark\r\n", "700 OK INDEX MARK\r\n"]
      = .panics "index out of bounds: the len is 3 but the index is 3"
    ∧ receiveEvent ["701-21\r\n", "701-test\r\n", "701 BEGIN\r\n"]
      = .value (.ok ⟨.Begin, "21", "test"⟩)
    ∧ receiveEvent ["705-21\r\n", "705-test\r\n", "705 RESUMED\r\n"]
      = .value (.ok ⟨.Resume, "21", "test"⟩)
    ∧ receiveEvent ["706-21\r\n", "706-test\r\n", "706 OK WHAT\r\n"]
      = .value (.error (.ioErr .invalidData "wrong status code for event")) :=
  ⟨by decide, by decide, by decide, by decide⟩

/-- C8: payload line counts for event codes in Client::receive.  Codes
701-705 accept exactly two lines (fewer is TooFewLines, more is
TooManyLines).  For code 700, fewer than three lines is TooFewLines and
more is TooManyLines as claimed, but a frame with exactly three lines
does NOT decode to EventIndexMark: the source feeds all three lines to
parse_event_id, which rejects three lines with TooManyLines, so the
EventIndexMark arm is unreachable. -/
theorem C8_event_payload_line_counts :
    receiveRun ["700-21\r\n", "700-test\r\n", "700-mark\r\n", "700 OK INDEX MARK\r\n"]
      = .value (.error .tooManyLines)
    ∧ (∀ (m a b c : String), decodeResponse ⟨700, m⟩ [a, b, c]
        = .value (.error .tooManyLines))
    ∧ (∀ m : String, decodeResponse ⟨700, m⟩ [] = .value (.error .tooFewLines))
    ∧ (∀ m a : String, decodeResponse ⟨700, m⟩ [a] = .value (.error .tooFewLines))
    ∧ (∀ m a b : String, decodeResponse ⟨700, m⟩ [a, b] = .value (.error .tooFewLines))
    ∧ (∀ (m a b c d : String) (tl : List String),
        decodeResponse ⟨700, m⟩ (a :: b :: c :: d :: tl) = .value (.error .tooManyLines))
    ∧ (∀ m a b : String, decodeResponse ⟨701, m⟩ [a, b] = .value (.ok (.eventBegin ⟨a, b⟩)))
    ∧ (∀ m a b : String, decodeResponse ⟨702, m⟩ [a, b] = .value (.ok (.eventEnd ⟨a, b⟩)))
    ∧ (∀ m a b : String, decodeResponse ⟨703, m⟩ [a, b] = .value (.ok (.eventCanceled ⟨a, b⟩)))
    ∧ (∀ m a b : String, decodeResponse ⟨704, m⟩ [a, b] = .value (.ok (.eventPaused ⟨a, b⟩)))
    ∧ (∀ m a b : String, decodeResponse ⟨705, m⟩ [a, b] = .value (.ok (.eventResumed ⟨a, b⟩)))
    ∧ (∀ m a : String, decodeResponse ⟨701, m⟩ [a] = .value (.error .tooFewLines))
    ∧ (∀ m a b c : String, decodeResponse ⟨701, m⟩ [a, b, c] = .value (.error .tooManyLines)) := by
  refine ⟨rfl, ?_, ?_, ?_, ?_, ?_, ?_, ?_, ?_, ?_, ?_, ?_, ?_⟩ <;>
    intros <;> simp [decodeResponse, parseEventId, Except.map]

/-- C5: Client::receive on a success-classified status code without a
decoder arm.  The claim says such frames yield a tagged protocol-failure
error and never panic; the source's wildcard arm is
panic!("error should have been caught earlier"), which is reachable for
success codes such as 200, e.g. the well-formed frame "200 OK TEST". -/
theorem C5_unhandled_success_code_panics (status : StatusLine)
    (lines : List String) (hc : status.code ∉ handledCodes) :
    decodeResponse status lines = .panics "error should have been caught earlier"
    ∧ receiveRun ["200 OK TEST\r\n"] = .panics "error should have been caught earlier" := by
  constructor
  · simp only [handledCodes, List.mem_cons, List.not_mem_nil, or_false, not_or] at hc
    obtain ⟨e1, e2, e3, e4, e5, e6, e7, e8, e9, e10, e11, e12, e13, e14, e15,
      e16, e17, e18, e19, e20, e21, e22, e23, e24, e25, e26, e27, e28, e29,
      e30, e31, e32, e33, e34, e35, e36, e37, e38, e39, e40, e41, e42, e43,
      e44, e45, e46, e47, e48, e49, e50⟩ := hc
    simp [decodeResponse, e1, e2, e3, e4, e5, e6, e7, e8, e9, e10, e11, e12,
      e13, e14, e15, e16, e17, e18, e19, e20, e21, e22, e23, e24, e25, e26,
      e27, e28, e29, e30, e31, e32, e33, e34, e35, e36, e37, e38, e39, e40,
      e41, e42, e43, e44, e45, e46, e47, e48, e49, e50]
  · rfl

/-- Witness for C5 at the concrete unhandled success code 200. -/
theorem C5_witness :
    (200 : Nat) ∉ handledCodes
    ∧ decodeResponse ⟨200, "TEST"⟩ [] = .panics "error should have been caught earlier" :=
  ⟨by decide, (C5_unhandled_success_code_panics ⟨200, "TEST"⟩ [] (by decide)).1⟩

/-- Counterexample to C2: QueuedClient::send_next pops the head request
before sending it, so when the send fails with NotReady the queue has
already advanced (the head is dropped, not re-queued) and a second
send_next on the resulting queue returns Ok(false), not NotReady. -/
theorem C2_counterexample :
    sendNext (fun _ => .error .notReady) [Request.Quit] = (.error .notReady, [])
    ∧ sendNext (fun _ => .error .notReady)
        (sendNext (fun _ => .error .notReady) [Request.Quit]).2 = (.ok false, [])
    ∧ (sendNext (fun _ => .error .notReady) [Request.Quit]).2 ≠ [Request.Quit] :=
  ⟨rfl, rfl, fun h => List.noConfusion h⟩

/-- C2 (amended): send_next removes the head request from the queue
before attempting the send, in the error case (including NotReady) as
well as on success; success returns true, an empty queue returns false
and leaves nothing to remove. -/
theorem C2_send_next_queue_behavior (f : Request → Except ClientError Unit)
    (r : Request) (rest : List Request) :
    (f r = .error .notReady → sendNext f (r :: rest) = (.error .notReady, rest))
    ∧ (∀ e : ClientError, f r = .error e → sendNext f (r :: rest) = (.error e, rest))
    ∧ (f r = .ok () → sendNext f (r :: rest) = (.ok true, rest))
    ∧ sendNext f [] = (.ok false, []) :=
  ⟨fun h => by simp [sendNext, h],
   fun e h => by simp [sendNext, h],
   fun h => by simp [sendNext, h],
   rfl⟩

/-- Witness for C2's amended behavior on a one-request queue. -/
theorem C2_witness :
    sendNext (fun _ => .error .notReady) [Request.Speak] = (.error .notReady, [])
    ∧ sendNext (fun _ => .ok ()) [Request.Speak] = (.ok true, [])
    ∧ sendNext (fun _ => .ok ()) [] = (.ok false, []) :=
  ⟨(C2_send_next_queue_behavior (fun _ => .error .notReady) Request.Speak []).1 rfl,
   (C2_send_next_queue_behavior (fun _ => .ok ()) Request.Speak []).2.2.1 rfl,
   (C2_send_next_queue_behavior (fun _ => .ok ()) Request.Speak []).2.2.2⟩

/-- C6: the range setters SetRate, SetPitch and SetVolume transmit
max(-100, min(100, v)) for every i8 input v, the transmitted integer lies
in [-100, 100], and an input already in [-100, 100] is transmitted
unchanged. -/
theorem C6_range_setters_clamp (scope : ClientScope) (v : Int)
    (hlo : -128 ≤ v) (hhi : v ≤ 127) :
    encodeRequest (.SetRate scope v)
      = ["SET " ++ scope.display ++ " RATE " ++ toString (max (-100) (min 100 v))]
    ∧ encodeRequest (.SetPitch scope v)
      = ["SET " ++ scope.display ++ " PITCH " ++ toString (max (-100) (min 100 v))]
    ∧ encodeRequest (.SetVolume scope v)
      = ["SET " ++ scope.display ++ " VOLUME " ++ toString (max (-100) (min 100 v))]
    ∧ -100 ≤ max (-100) (min 100 v)
    ∧ max (-100) (min 100 v) ≤ 100
    ∧ (-100 ≤ v → v ≤ 100 → max (-100) (min 100 v) = v) :=
  ⟨rfl, rfl, rfl, le_max_left _ _, max_le (by norm_num) (min_le_left _ _),
   fun ha hb => by rw [min_eq_right hb, max_eq_right ha]⟩

/-- Witness for C6: the out-of-range extremes of i8 are clamped and an
in-range value passes through. -/
theorem C6_witness :
    encodeRequest (.SetRate .Current 127) = ["SET self RATE 100"]
    ∧ encodeRequest (.SetRate .Current (-128)) = ["SET self RATE -100"]
    ∧ encodeRequest (.SetVolume .Current 42) = ["SET self VOLUME 42"] := by
  refine ⟨?_, ?_, ?_⟩
  · rw [(C6_range_setters_clamp .Current 127 (by norm_num) (by norm_num)).1]; rfl
  · rw [(C6_range_setters_clamp .Current (-128) (by norm_num) (by norm_num)).1]; rfl
  · rw [(C6_range_setters_clamp .Current 42 (by norm_num) (by norm_num)).2.2.1]; rfl

/-- C7: the frame parser on zero or more continuation lines NNN-<payload>
followed by a terminal line NNN <rest>: the payloads are collected in
order, the terminal code is returned with its message stripped of a
leading "OK " (success) or "ERR " (failure), and a code in [300, 700)
yields an Ssip(StatusLine) failure while any other code yields success. -/
theorem C7_receive_answer_frames (d1 d2 d3 : Char) (h1 : d1.isDigit = true)
    (h2 : d2.isDigit = true) (h3 : d3.isDigit = true)
    (ps : List String) (hp : ∀ p ∈ ps, cleanLine p)
    (rest : String) (hr : cleanLine rest) :
    (¬(300 ≤ codeVal d1 d2 d3 ∧ codeVal d1 d2 d3 < 700) →
      receiveAnswer (mkFrame d1 d2 d3 ps rest) (some []) =
        .ok (⟨codeVal d1 d2 d3, String.mk (stripLead "OK ".data rest.data)⟩, ps))
    ∧ ((300 ≤ codeVal d1 d2 d3 ∧ codeVal d1 d2 d3 < 700) →
      receiveAnswer (mkFrame d1 d2 d3 ps rest) (some []) =
        .error (.ssip ⟨codeVal d1 d2 d3, String.mk (stripLead "ERR ".data rest.data)⟩)) := by
  have base := receiveAnswer_mkFrame d1 d2 d3 h1 h2 h3 rest hr.2 ps
    (fun p hq => (hp p hq).2) []
  constructor
  · intro hcls
    rw [base]
    unfold parseStatusLine
    rw [if_neg hcls]
    rfl
  · intro hcls
    rw [base]
    unfold parseStatusLine
    rw [if_pos hcls]
    rfl

/-- Witness for C7: the spec's concrete multi-line success frame, and an
error frame with "ERR " stripping. -/
theorem C7_witness :
    receiveAnswer ["249-a\r\n", "249-b\r\n", "249 OK X\r\n"] (some [])
      = .ok (⟨249, "X"⟩, ["a", "b"])
    ∧ receiveAnswer ["409-a\r\n", "409 ERR RATE TOO HIGH\r\n"] (some [])
      = .error (.ssip ⟨409, "RATE TOO HIGH"⟩) := by
  constructor
  · exact (C7_receive_answer_frames '2' '4' '9' (by decide) (by decide) (by decide)
      ["a", "b"] (by decide) "OK X" (by decide)).1 (by decide)
  · exact (C7_receive_answer_frames '4' '0' '9' (by decide) (by decide) (by decide)
      ["a"] (by decide) "ERR RATE TOO HIGH" (by decide)).2 (by decide)

/-- Counterexample to C9 as stated: for a received status code other than
225/242 that is classified as an error (here 409), receive_message_id
surfaces the Ssip(StatusLine) failure from the frame parser, not an
InvalidData error. -/
theorem C9_counterexample :
    receiveMessageId ["409 ERR RATE TOO HIGH\r\n"]
      = .error (.ssip ⟨409, "RATE TOO HIGH"⟩)
    ∧ ∀ m : String, receiveMessageId ["409 ERR RATE TOO HIGH\r\n"]
        ≠ .error (.ioErr .invalidData m) := by
  have h : receiveMessageId ["409 ERR RATE TOO HIGH\r\n"]
      = .error (.ssip ⟨409, "RATE TOO HIGH"⟩) := by decide
  refine ⟨h, fun m hm => ?_⟩
  rw [h] at hm
  simp at hm

/-- C9 (amended): receive_message_id returns the single payload line
(the message id, MessageId being String in types.rs) when the received
code is 225 or 242; any other success-classified code yields InvalidData
"not a message id"; a code in [300, 700) is reported as Ssip(StatusLine)
by the frame parser instead. -/
theorem C9_receive_message_id (d1 d2 d3 : Char) (h1 : d1.isDigit = true)
    (h2 : d2.isDigit = true) (h3 : d3.isDigit = true)
    (rest : String) (hr : cleanLine rest) :
    ((codeVal d1 d2 d3 = 225 ∨ codeVal d1 d2 d3 = 242) →
      ∀ s : String, cleanLine s →
        receiveMessageId (mkFrame d1 d2 d3 [s] rest) = .ok s)
    ∧ (¬(300 ≤ codeVal d1 d2 d3 ∧ codeVal d1 d2 d3 < 700) →
        ¬(codeVal d1 d2 d3 = 225 ∨ codeVal d1 d2 d3 = 242) →
      ∀ ps : List String, (∀ p ∈ ps, cleanLine p) →
        receiveMessageId (mkFrame d1 d2 d3 ps rest)
          = .error (.ioErr .invalidData "not a message id"))
    ∧ ((300 ≤ codeVal d1 d2 d3 ∧ codeVal d1 d2 d3 < 700) →
      ∀ ps : List String, (∀ p ∈ ps, cleanLine p) →
        receiveMessageId (mkFrame d1 d2 d3 ps rest)
          = .error (.ssip ⟨codeVal d1 d2 d3, String.mk (stripLead "ERR ".data rest.data)⟩)) := by
  refine ⟨?_, ?_, ?_⟩
  · intro hcode s hs
    have hterr : ¬(300 ≤ codeVal d1 d2 d3 ∧ codeVal d1 d2 d3 < 700) := by
      rcases hcode with h | h <;> rw [h] <;> omega
    have base := receiveAnswer_mkFrame d1 d2 d3 h1 h2 h3 rest hr.2 [s]
      (by intro p hp; simp at hp; subst hp; exact hs.2) []
    unfold receiveMessageId
    rw [base]
    unfold parseStatusLine
    rw [if_neg hterr]
    simp only [Except.map, Except.bind]
    rw [if_pos hcode]
    rfl
  · intro hterr hcode ps hps
    have base := receiveAnswer_mkFrame d1 d2 d3 h1 h2 h3 rest hr.2 ps
      (fun p hp => (hps p hp).2) []
    unfold receiveMessageId
    rw [base]
    unfold parseStatusLine
    rw [if_neg hterr]
    simp only [Except.map, Except.bind]
    rw [if_neg hcode]
  · intro hterr ps hps
    have base := receiveAnswer_mkFrame d1 d2 d3 h1 h2 h3 rest hr.2 ps
      (fun p hp => (hps p hp).2) []
    unfold receiveMessageId
    rw [base]
    unfold parseStatusLine
    rw [if_pos hterr]
    rfl

/-- Witness for C9's amended behavior at codes 225, 251 and 409. -/
theorem C9_witness :
    receiveMessageId ["225-21\r\n", "225 OK MESSAGE QUEUED\r\n"] = .ok "21"
    ∧ receiveMessageId ["251-21\r\n", "251 OK GET RETURNED\r\n"]
      = .error (.ioErr .invalidData "not a message id")
    ∧ receiveMessageId ["302 ERR COULDNT SET LANGUAGE\r\n"]
      = .error (.ssip ⟨302, "COULDNT SET LANGUAGE"⟩) := by
  refine ⟨?_, ?_, ?_⟩
  · exact (C9_receive_message_id '2' '2' '5' (by decide) (by decide) (by decide)
      "OK MESSAGE QUEUED" (by decide)).1 (by decide) "21" (by decide)
  · exact (C9_receive_message_id '2' '5' '1' (by decide) (by decide) (by decide)
      "OK GET RETURNED" (by decide)).2.1 (by decide) (by decide) ["21"] (by decide)
  · exact (C9_receive_message_id '3' '0' '2' (by decide) (by decide) (by decide)
      "ERR COULDNT SET LANGUAGE" (by decide)).2.2 (by decide) [] (by decide)

/-- C10: receive_i8 is declared as returning an unsigned 8-bit value and
parses the single line of a code-251 response as u8: a decimal digit
string with value at most 255 comes back as that value, a negative
decimal integer is InvalidData, and no returned value exceeds 255 (so
none is negative). -/
theorem C10_receive_i8_unsigned (s : String) :
    (allDigits s.data = true → s.data ≠ [] → digitsVal s.data ≤ 255 →
      receiveI8 (mkFrame '2' '5' '1' [s] "OK GET RETURNED")
        = .ok (digitsVal s.data))
    ∧ (∀ t : String, s.data = '-' :: t.data → allDigits t.data = true →
      receiveI8 (mkFrame '2' '5' '1' [s] "OK GET RETURNED")
        = .error (.ioErr .invalidData "invalid signed integer"))
    ∧ (∀ (input : List String) (n : Nat), receiveI8 input = .ok n → n ≤ 255) := by
  have hcv : codeVal '2' '5' '1' = 251 := by decide
  have hrest : trimEnd ("OK GET RETURNED".data) = "OK GET RETURNED".data := by decide
  refine ⟨?_, ?_, ?_⟩
  · intro hd hne hb
    have hdall : ∀ c ∈ s.data, c.isDigit = true := by
      simpa [allDigits, List.all_eq_true] using hd
    have hclean : trimEnd s.data = s.data :=
      trimEnd_eq_self (fun c hc => isWs_false_of_isDigit (hdall c hc))
    have base := receiveAnswer_mkFrame '2' '5' '1' (by decide) (by decide)
      (by decide) "OK GET RETURNED" hrest [s] (by simpa using hclean) []
    rw [hcv] at base
    have hparse := rustParseUnsigned_digits hne hd hb
    unfold receiveI8 receiveString receiveLines
    rw [base]
    unfold parseStatusLine
    rw [if_neg (by omega)]
    simp only [Except.map, Except.bind, if_true, List.nil_append, parseSingleValue]
    rw [hparse]
  · intro t hst htd
    have hall : ∀ c ∈ t.data, c.isDigit = true := by
      simpa [allDigits, List.all_eq_true] using htd
    have hclean : trimEnd s.data = s.data := by
      rw [hst]
      refine trimEnd_eq_self ?_
      intro c hc
      rcases List.mem_cons.mp hc with h | h
      · subst h; decide
      · exact isWs_false_of_isDigit (hall c h)
    have base := receiveAnswer_mkFrame '2' '5' '1' (by decide) (by decide)
      (by decide) "OK GET RETURNED" hrest [s] (by simpa using hclean) []
    rw [hcv] at base
    have hparse : rustParseUnsigned 255 s.data = none := by
      rw [hst]
      unfold rustParseUnsigned
      rw [if_neg (by simp [List.headD])]
      unfold rustParseDigits
      rw [if_neg (by simp [allDigits])]
    unfold receiveI8 receiveString receiveLines
    rw [base]
    unfold parseStatusLine
    rw [if_neg (by omega)]
    simp only [Except.map, Except.bind, if_true, List.nil_append, parseSingleValue]
    rw [hparse]
  · intro input n h
    unfold receiveI8 at h
    cases hrs : receiveString input 251 with
    | error e => rw [hrs] at h; exact absurd h (by simp [Except.bind])
    | ok u =>
      rw [hrs] at h
      simp only [Except.bind] at h
      cases hp : rustParseUnsigned 255 u.data with
      | none => rw [hp] at h; exact absurd h (by simp)
      | some v =>
        rw [hp] at h
        have hle := rustParseUnsigned_le hp
        simp at h
        omega

/-- Witness for C10: payloads 100 and -100 of a code-251 response. -/
theorem C10_witness :
    receiveI8 (mkFrame '2' '5' '1' ["100"] "OK GET RETURNED") = .ok 100
    ∧ receiveI8 (mkFrame '2' '5' '1' ["-100"] "OK GET RETURNED")
      = .error (.ioErr .invalidData "invalid signed integer") := by
  constructor
  · have h := (C10_receive_i8_unsigned "100").1 (by decide) (by decide) (by decide)
    rw [h]
    decide
  · exact (C10_receive_i8_unsigned "-100").2.1 "100" (by decide) (by decide)

end SSIPClient
